import Mathlib

/-!
# Verification of the vkinha-bot scheduler (src/bot.py)

Shallow embedding of the per-account scheduling and decision engine of
`src/bot.py`.  Python floats are modelled by exact rationals (`ℚ`); wei and
token amounts are integers (`ℤ`); `None`-able values are `Option`s; calls to
external services (chain balances, router quotes, transaction submission,
random draws) are explicit inputs of each cycle.  Python's truncating `int()`
conversion is modelled by `pyInt`.
-/

namespace Vkinha

/-- Python `int()` applied to a rational: truncation toward zero. -/
def pyInt (q : ℚ) : ℤ :=
  if 0 ≤ q then ⌊q⌋ else -⌊-q⌋

theorem pyInt_of_nonneg {q : ℚ} (h : 0 ≤ q) : pyInt q = ⌊q⌋ := by
  simp [pyInt, h]

theorem pyInt_nonneg {q : ℚ} (h : 0 ≤ q) : 0 ≤ pyInt q := by
  rw [pyInt_of_nonneg h]
  exact_mod_cast Int.le_floor.mpr (by exact_mod_cast h)

theorem pyInt_le {q : ℚ} (h : 0 ≤ q) : (pyInt q : ℚ) ≤ q := by
  rw [pyInt_of_nonneg h]
  exact Int.floor_le q

/-- `int(t * u) < t` whenever `0 < t` and `0 ≤ u < 1`: a truncated proper
fraction of a positive integer balance is strictly below the balance. -/
theorem pyInt_mul_lt {t : ℤ} {u : ℚ} (ht : 0 < t) (hu0 : 0 ≤ u) (hu1 : u < 1) :
    pyInt ((t : ℚ) * u) < t := by
  have htq : (0 : ℚ) ≤ (t : ℚ) := by exact_mod_cast ht.le
  have hnn : (0 : ℚ) ≤ (t : ℚ) * u := mul_nonneg htq hu0
  have h1 : ((pyInt ((t : ℚ) * u)) : ℚ) ≤ (t : ℚ) * u := pyInt_le hnn
  have h2 : (t : ℚ) * u < (t : ℚ) := by
    calc (t : ℚ) * u < (t : ℚ) * 1 := by
          apply mul_lt_mul_of_pos_left hu1 (by exact_mod_cast ht)
      _ = (t : ℚ) := mul_one _
  exact_mod_cast h1.trans_lt h2

/-! ## Configuration (env defaults of src/bot.py, lines 46–65)

`SLIPPAGE_TOLERANCE` and `PROFIT_TARGET` keep their source default values;
the env-configurable timing and sizing parameters live in `Config`. -/

/-- Default of env `SLIPPAGE_TOLERANCE` (0.70, src/bot.py line 53).  The
constant is read from the environment but never used by any trade call. -/
def SLIPPAGE_TOLERANCE : ℚ := 7 / 10

/-- Hard-coded profit target, src/bot.py line 56. -/
def PROFIT_TARGET : ℚ := 105 / 100

/-- Env-configurable parameters of the scheduler (src/bot.py lines 46–65). -/
structure Config where
  stagger_min : ℚ
  stagger_max : ℚ
  hold_min : ℚ
  hold_max : ℚ
  position_pct_min : ℚ
  position_pct_max : ℚ
  volume_mode : Bool
  gas_reserve_wei : ℤ
  price_ttl : ℚ
deriving Repr

/-- The defaults of src/bot.py: STAGGER 3–6, HOLD 10–18, position 1%–30%,
volume mode off, gas reserve 0.002 BNB in wei, price TTL 10 s. -/
def defaultConfig : Config :=
  { stagger_min := 3
    stagger_max := 6
    hold_min := 10
    hold_max := 18
    position_pct_min := 1 / 100
    position_pct_max := 3 / 10
    volume_mode := false
    gas_reserve_wei := 2000000000000000
    price_ttl := 10 }

/-! ## Trade calls (src/bot.py, `buy_tokens` lines 257–274 and
`sell_tokens` lines 276–303)

Both functions build a router swap call with `amount_out_min = 0` and a
3-minute deadline, returning `None` when the input amount is non-positive. -/

/-- The assets appearing in swap paths. -/
inductive Asset
  | wbnb
  | token
  | usdt
deriving DecidableEq, Repr

/-- A swap submitted to the router: input amount, enforced minimum output,
path and absolute deadline. -/
structure SwapCall where
  amount_in : ℤ
  amount_out_min : ℤ
  path : List Asset
  deadline : ℤ
deriving DecidableEq, Repr

/-- `buy_tokens` (src/bot.py lines 257–274): returns `none` when
`bnb_wei ≤ 0`, otherwise a `swapExactETHForTokens…` call with
`amount_out_min = 0`, path `[WBNB, TOKEN]`, deadline `now + 180`. -/
def buy_tokens (now : ℤ) (bnb_wei : ℤ) : Option SwapCall :=
  if bnb_wei ≤ 0 then none
  else some { amount_in := bnb_wei
              amount_out_min := 0
              path := [Asset.wbnb, Asset.token]
              deadline := now + 60 * 3 }

/-- `sell_tokens` (src/bot.py lines 276–303): returns `none` when
`amount_in ≤ 0`, otherwise a `swapExactTokensForETH…` call with
`amount_out_min = 0`, path `[TOKEN, WBNB]`, deadline `now + 180`. -/
def sell_tokens (now : ℤ) (amount_in : ℤ) : Option SwapCall :=
  if amount_in ≤ 0 then none
  else some { amount_in := amount_in
              amount_out_min := 0
              path := [Asset.token, Asset.wbnb]
              deadline := now + 60 * 3 }

/-! ## Price lookup with TTL cache (src/bot.py, `get_token_price_usd`
lines 150–178)

The router quote calls are abstracted by an `OracleResponse`: for each of the
two candidate paths, `some q` is a successful `getAmountsOut` call returning
`q`, and `none` is a raised exception. -/

/-- Module-level `_TOKENUSD_CACHE` (src/bot.py line 150). -/
structure PriceCache where
  t : ℚ
  v : Option ℚ
deriving DecidableEq, Repr

/-- Outcome of the two `getAmountsOut` calls attempted by
`get_token_price_usd`: `direct` is the `[TOKEN, USDT]` path, `via_wbnb` the
`[TOKEN, WBNB, USDT]` path; `none` means the call raised. -/
structure OracleResponse where
  direct : Option ℤ
  via_wbnb : Option ℤ
deriving DecidableEq, Repr

/-- The `usd_out` computation of src/bot.py lines 161–168: the direct-path
call is tried first and its result used whenever the call succeeds; the
via-WBNB path is queried only when the direct call raises; if both raise,
`usd_out = 0`. -/
def route_quote (o : OracleResponse) : ℤ :=
  match o.direct with
  | some q => q
  | none =>
    match o.via_wbnb with
    | some q => q
    | none => 0

/-- The path whose quote `route_quote` returns, if any call succeeded. -/
def route_path (o : OracleResponse) : Option (List Asset) :=
  match o.direct with
  | some _ => some [Asset.token, Asset.usdt]
  | none =>
    match o.via_wbnb with
    | some _ => some [Asset.token, Asset.wbnb, Asset.usdt]
    | none => none

/-- `get_token_price_usd` (src/bot.py lines 155–178).  Returns the price
result, the updated cache, and whether an external router call was issued.
A cached value younger than `price_ttl` is returned without any call; a
zero `usd_out` falls back to the cached value without updating the cache;
a positive `usd_out` is scaled by the USDT decimals and stored. -/
def get_token_price_usd (ttl : ℚ) (usdt_decimals : ℕ) (now : ℚ)
    (o : OracleResponse) (cache : PriceCache) : Option ℚ × PriceCache × Bool :=
  match cache.v with
  | some v =>
    if now - cache.t ≤ ttl then (some v, cache, false)
    else
      let usd_out := route_quote o
      if usd_out = 0 then (cache.v, cache, true)
      else
        let usd : ℚ := (usd_out : ℚ) / 10 ^ usdt_decimals
        (some usd, { t := now, v := some usd }, true)
  | none =>
    let usd_out := route_quote o
    if usd_out = 0 then (cache.v, cache, true)
    else
      let usd : ℚ := (usd_out : ℚ) / 10 ^ usdt_decimals
      (some usd, { t := now, v := some usd }, true)

/-! ## Fibonacci generator (src/bot.py, `fib_gen` lines 315–319)

`fib_gen` is a Python generator with internal state `(a, b)` starting at
`(0, 1)`; each `next` yields `b` and advances to `(b, a + b)`. -/

/-- Internal state of one `fib_gen` generator. -/
structure FibState where
  a : ℕ
  b : ℕ
deriving DecidableEq, Repr

/-- `a, b = 0, 1` (src/bot.py line 316). -/
def fibInit : FibState := ⟨0, 1⟩

/-- One `next(...)` on a `fib_gen` generator: the yielded value and the
successor state (src/bot.py lines 317–319). -/
def fib_gen_next (s : FibState) : ℕ × FibState :=
  (s.b, ⟨s.b, s.a + s.b⟩)

/-- State of `buy_fib` after the two warm-up `next` calls of src/bot.py
lines 353–355 ("Start at 2 buys"). -/
def seeded_buy_fib : FibState := (fib_gen_next (fib_gen_next fibInit).2).2

/-- State of `sell_fib` after the single warm-up `next` call of src/bot.py
lines 356–357 ("Start at 1 sell"). -/
def seeded_sell_fib : FibState := (fib_gen_next fibInit).2

/-! ## Scheduler state (src/bot.py, `run` lines 328–489) -/

/-- Wallet addresses, abstracted to naturals. -/
abbrev Addr := ℕ

/-- Per-account state dict of src/bot.py lines 334–340:
`entry_time`, `entry_price` (both `None`-able) and `sell_count`. -/
structure AccountState where
  entry_time : Option ℚ
  entry_price : Option ℚ
  sell_count : ℕ
deriving DecidableEq, Repr

/-- An action token of the shared queue. -/
inductive Action
  | buy
  | sell
deriving DecidableEq, Repr

/-- The mutable state of the `run` loop: the account list, the per-account
state map, the shared action queue (head = left end of the deque), the two
Fibonacci generator states and the `last_received_bnb` global. -/
structure BotState where
  accounts : List Addr
  states : Addr → AccountState
  queue : List Action
  buy_fib : FibState
  sell_fib : FibState
  last_received_bnb : ℤ

/-- External observations and random draws consumed by one loop cycle:
the wall clock, the price-fetch result, balance lookups, the
`random.choice` index, the position- and sell-fraction draws, whether the
submitted transaction succeeds, the BNB received by a successful sell, the
`random.shuffle` permutation and the stagger-sleep draw. -/
structure CycleEnv where
  now : ℚ
  price : Option ℚ
  token_bal : Addr → ℤ
  bnb_bal : Addr → ℤ
  pick : ℕ
  fraction : ℚ
  sell_fraction : ℚ
  tx_ok : Bool
  received_bnb : ℤ
  shuffle : List Action → List Action
  stagger : ℚ

/-- Observable outcome of one loop cycle: the (account, action) pair the
engine attempted (if any), whether it went through the no-BNB forced-sell
path, whether a transaction was submitted, whether it succeeded, the traded
amount, and the sleep performed at the end of the cycle. -/
structure CycleResult where
  attempted : Option (Addr × Action)
  forced : Bool
  submitted : Bool
  executed : Bool
  amount : ℤ
  sleep : ℚ
deriving DecidableEq, Repr

/-- `refill_queue` (src/bot.py lines 359–365): advance each Fibonacci
generator once, build `buy_count` buy tokens followed by `sell_count` sell
tokens, shuffle, and append to the right of the queue. -/
def refill_queue (shuffle : List Action → List Action) (s : BotState) :
    BotState :=
  let bstep := fib_gen_next s.buy_fib
  let sstep := fib_gen_next s.sell_fib
  let actions := List.replicate bstep.1 Action.buy
                  ++ List.replicate sstep.1 Action.sell
  { s with buy_fib := bstep.2
           sell_fib := sstep.2
           queue := s.queue ++ shuffle actions }

/-- `spendable = max(0, bnb_bal - int(GAS_RESERVE_BNB * 1e18))`
(src/bot.py line 381). -/
def spendable_of (cfg : Config) (env : CycleEnv) (a : Addr) : ℤ :=
  max 0 (env.bnb_bal a - cfg.gas_reserve_wei)

/-- The eligible-wallet scan of src/bot.py lines 376–387: for a buy token,
wallets with positive spendable BNB paired with that spendable amount; for a
sell token, wallets with a positive token balance paired with it. -/
def candidatesFor (cfg : Config) (env : CycleEnv) (accounts : List Addr)
    (action : Action) : List (Addr × ℤ) :=
  accounts.filterMap fun a =>
    match action with
    | Action.buy =>
      if 0 < spendable_of cfg env a then some (a, spendable_of cfg env a)
      else none
    | Action.sell =>
      if 0 < env.token_bal a then some (a, env.token_bal a) else none

/-- The fallback scan of src/bot.py line 391: all wallets holding tokens. -/
def sell_candidatesFor (env : CycleEnv) (accounts : List Addr) :
    List (Addr × ℤ) :=
  accounts.filterMap fun a =>
    if 0 < env.token_bal a then some (a, env.token_bal a) else none

/-- `random.choice` on a nonempty candidate list, with the uniform draw
supplied as an index reduced modulo the list length. -/
def pickFrom (l : List (Addr × ℤ)) (k : ℕ) : Addr × ℤ :=
  l.getD (k % l.length) (0, 0)

/-- `age = _now() - entry_time if entry_time else 0`
(src/bot.py lines 383, 464). -/
def age (now : ℚ) (entry_time : Option ℚ) : ℚ :=
  match entry_time with
  | some t => now - t
  | none => 0

/-- The profit-target override of src/bot.py lines 466–468: fires when a
truthy price and a truthy positive entry price satisfy
`price ≥ entry_price * PROFIT_TARGET`. -/
def profit_trigger (price : Option ℚ) (st : AccountState) : Bool :=
  match price, st.entry_price with
  | some p, some ep =>
    decide (p ≠ 0) && decide (ep ≠ 0) && decide (0 < ep)
      && decide (ep * PROFIT_TARGET ≤ p)
  | _, _ => false

/-- The `sell_now` decision of src/bot.py lines 464–468: the base hold
check (`age ≥ HOLD_MIN` in volume mode, else `age ≥ HOLD_MAX`), possibly
overridden to `True` by the profit trigger outside volume mode. -/
def sell_now_decision (cfg : Config) (now : ℚ) (price : Option ℚ)
    (st : AccountState) : Bool :=
  let a := age now st.entry_time
  let base : Bool :=
    if cfg.volume_mode then decide (cfg.hold_min ≤ a)
    else decide (cfg.hold_max ≤ a)
  base || (!cfg.volume_mode && profit_trigger price st)

/-- `price = get_token_price_usd() if not VOLUME_MODE else None`
(src/bot.py line 442), with the fetch result supplied by the environment. -/
def cycle_price (cfg : Config) (env : CycleEnv) : Option ℚ :=
  if cfg.volume_mode then none else env.price

/-- `sell_percentage = 0.4 if sell_count == 0 else 0.3`
(src/bot.py line 395). -/
def forced_sell_pct (st : AccountState) : ℚ :=
  if st.sell_count = 0 then 2 / 5 else 3 / 10

/-- `if sell_count < 2: action_queue.appendleft('sell')`
(src/bot.py lines 406–407), applied after the increment. -/
def forced_requeue (n : ℕ) (q : List Action) : List Action :=
  if n < 2 then Action.sell :: q else q

/-- The `to_spend` computation of src/bot.py lines 445–446:
`int(last_received_bnb * 1.05)` when a prior sell recorded proceeds, else
`int(spendable * fraction)`; capped at `int(spendable * 0.3)`. -/
def buy_to_spend (last_received : ℤ) (amount : ℤ) (fraction : ℚ) : ℤ :=
  min (if 0 < last_received then pyInt ((last_received : ℚ) * (105 / 100))
       else pyInt ((amount : ℚ) * fraction))
    (pyInt ((amount : ℚ) * (3 / 10)))

/-- The no-BNB forced-sell path of src/bot.py lines 389–422, entered when a
buy token found no funded wallet: pick a token-holding wallet at random, sell
40% of its balance on its first forced sell and 30% afterwards, reset its
entry on success, and push another sell token at the front of the queue while
`sell_count < 2`; the cycle ends with a stagger sleep whenever the sell was
attempted, and with a 5-second sleep when no wallet could sell. -/
def forced_sell_result (env : CycleEnv) (s : BotState) :
    BotState × CycleResult :=
  let sc := sell_candidatesFor env s.accounts
  if sc.isEmpty then
    (s, ⟨none, false, false, false, 0, 5⟩)
  else
    let pickres := pickFrom sc env.pick
    let a := pickres.1
    let tbal := pickres.2
    let amount_in := pyInt ((tbal : ℚ) * forced_sell_pct (s.states a))
    if 0 < amount_in then
      if env.tx_ok then
        ({ s with
            states := Function.update s.states a
              ⟨none, none, (s.states a).sell_count + 1⟩
            queue := forced_requeue ((s.states a).sell_count + 1) s.queue
            last_received_bnb := env.received_bnb },
         ⟨some (a, Action.sell), true, true, true, amount_in, env.stagger⟩)
      else
        (s, ⟨some (a, Action.sell), true, true, false, amount_in, env.stagger⟩)
    else
      (s, ⟨none, false, false, false, 0, 5⟩)

/-- The buy branch of src/bot.py lines 444–457: spend `buy_to_spend`; skip
the cycle without sleeping when the result is non-positive; on success
record entry time, entry price (fetched price or 0.0) and reset
`sell_count`. -/
def buy_branch (cfg : Config) (env : CycleEnv) (s : BotState) (a : Addr)
    (amount : ℤ) : BotState × CycleResult :=
  let to_spend := buy_to_spend s.last_received_bnb amount env.fraction
  if to_spend ≤ 0 then
    (s, ⟨some (a, Action.buy), false, false, false, 0, 0⟩)
  else if env.tx_ok then
    ({ s with
        states := Function.update s.states a
          ⟨some env.now, some ((cycle_price cfg env).getD 0), 0⟩ },
     ⟨some (a, Action.buy), false, true, true, to_spend, env.stagger⟩)
  else
    (s, ⟨some (a, Action.buy), false, true, false, to_spend, 5⟩)

/-- The queue-driven sell branch of src/bot.py lines 459–479: sell a random
30–40% of the token balance, but only when `sell_now_decision` allows it;
skip the cycle without sleeping when the amount is non-positive or the
decision says hold; on success reset the entry and bump `sell_count`. -/
def sell_branch (cfg : Config) (env : CycleEnv) (s : BotState) (a : Addr)
    (amount : ℤ) : BotState × CycleResult :=
  let amount_in := pyInt ((amount : ℚ) * env.sell_fraction)
  if amount_in ≤ 0 then
    (s, ⟨some (a, Action.sell), false, false, false, 0, 0⟩)
  else if sell_now_decision cfg env.now (cycle_price cfg env) (s.states a) then
    if env.tx_ok then
      ({ s with
          states := Function.update s.states a
            ⟨none, none, (s.states a).sell_count + 1⟩
          last_received_bnb := env.received_bnb },
       ⟨some (a, Action.sell), false, true, true, amount_in, env.stagger⟩)
    else
      (s, ⟨some (a, Action.sell), false, true, false, amount_in, 5⟩)
  else
    (s, ⟨some (a, Action.sell), false, false, false, amount_in, 0⟩)

/-- Dispatch on the popped action token (src/bot.py lines 375–479): scan for
eligible wallets; a buy token with no funded wallet falls back to the forced
sell, a sell token with no holder just sleeps; otherwise pick a wallet at
random and run the buy or sell branch. -/
def dispatch (cfg : Config) (env : CycleEnv) (s : BotState) (action : Action) :
    BotState × CycleResult :=
  let cands := candidatesFor cfg env s.accounts action
  if cands.isEmpty then
    match action with
    | Action.buy => forced_sell_result env s
    | Action.sell => (s, ⟨none, false, false, false, 0, 5⟩)
  else
    let pickres := pickFrom cands env.pick
    match action with
    | Action.buy => buy_branch cfg env s pickres.1 pickres.2
    | Action.sell => sell_branch cfg env s pickres.1 pickres.2

/-- One iteration of the `while True` loop of src/bot.py lines 369–489:
refill the queue when empty, pop the leftmost action token, and dispatch. -/
def cycle_step (cfg : Config) (env : CycleEnv) (s0 : BotState) :
    BotState × CycleResult :=
  let s1 := if s0.queue.isEmpty then refill_queue env.shuffle s0 else s0
  match s1.queue with
  | [] => (s1, ⟨none, false, false, false, 0, 0⟩)
  | action :: rest => dispatch cfg env { s1 with queue := rest } action

/-- The action token the engine will pop this cycle: the head of the queue
after the potential refill. -/
def next_action (shuffle : List Action → List Action) (s : BotState) :
    Option Action :=
  (if s.queue.isEmpty then refill_queue shuffle s else s).queue.head?

/-! ## Structural lemmas about one cycle -/

theorem pickFrom_mem {l : List (Addr × ℤ)} (h : l ≠ []) (k : ℕ) :
    pickFrom l k ∈ l := by
  unfold pickFrom
  have hlen : 0 < l.length := List.length_pos.mpr h
  have hk : k % l.length < l.length := Nat.mod_lt _ hlen
  rw [List.getD_eq_getElem?_getD, List.getElem?_eq_getElem hk]
  exact List.getElem_mem hk

theorem mem_candidatesFor_buy {cfg : Config} {env : CycleEnv}
    {accounts : List Addr} {a : Addr} {m : ℤ}
    (h : (a, m) ∈ candidatesFor cfg env accounts Action.buy) :
    m = spendable_of cfg env a ∧ 0 < m := by
  unfold candidatesFor at h
  rw [List.mem_filterMap] at h
  obtain ⟨x, _, hx⟩ := h
  by_cases hs : 0 < spendable_of cfg env x
  · simp only [hs, if_pos, Option.some.injEq, Prod.mk.injEq] at hx
    obtain ⟨hxa, hxm⟩ := hx
    subst hxa
    exact ⟨hxm.symm, hxm ▸ hs⟩
  · simp [hs] at hx

theorem mem_candidatesFor_sell {cfg : Config} {env : CycleEnv}
    {accounts : List Addr} {a : Addr} {m : ℤ}
    (h : (a, m) ∈ candidatesFor cfg env accounts Action.sell) :
    m = env.token_bal a ∧ 0 < m := by
  unfold candidatesFor at h
  rw [List.mem_filterMap] at h
  obtain ⟨x, _, hx⟩ := h
  by_cases hs : 0 < env.token_bal x
  · simp only [hs, if_pos, Option.some.injEq, Prod.mk.injEq] at hx
    obtain ⟨hxa, hxm⟩ := hx
    subst hxa
    exact ⟨hxm.symm, hxm ▸ hs⟩
  · simp [hs] at hx

theorem mem_sell_candidatesFor {env : CycleEnv}
    {accounts : List Addr} {a : Addr} {m : ℤ}
    (h : (a, m) ∈ sell_candidatesFor env accounts) :
    m = env.token_bal a ∧ 0 < m := by
  unfold sell_candidatesFor at h
  rw [List.mem_filterMap] at h
  obtain ⟨x, _, hx⟩ := h
  by_cases hs : 0 < env.token_bal x
  · simp only [hs, if_pos, Option.some.injEq, Prod.mk.injEq] at hx
    obtain ⟨hxa, hxm⟩ := hx
    subst hxa
    exact ⟨hxm.symm, hxm ▸ hs⟩
  · simp [hs] at hx

/-- Inversion for the buy branch: what each outcome implies. -/
theorem buy_branch_inv {cfg : Config} {env : CycleEnv} {s : BotState}
    {a : Addr} {amount : ℤ} {s' : BotState} {res : CycleResult}
    (h : buy_branch cfg env s a amount = (s', res)) :
    res.attempted = some (a, Action.buy) ∧ res.forced = false ∧
      (res.executed = true →
        env.tx_ok = true ∧
        res.amount = buy_to_spend s.last_received_bnb amount env.fraction ∧
        0 < res.amount ∧
        s'.states = Function.update s.states a
          ⟨some env.now, some ((cycle_price cfg env).getD 0), 0⟩ ∧
        res.sleep = env.stagger) ∧
      (res.executed = false → s' = s ∧
        (res.submitted = true → res.sleep = 5) ∧
        (res.submitted = false → res.sleep = 0)) := by
  simp only [buy_branch] at h
  split at h
  next hts =>
    obtain ⟨hs', hres⟩ := Prod.mk.injEq .. |>.mp h
    subst hs'; subst hres
    exact ⟨rfl, rfl, fun hx => by simp at hx,
      fun _ => ⟨rfl, fun hx => by simp at hx, fun _ => rfl⟩⟩
  next hts =>
    split at h
    next htx =>
      obtain ⟨hs', hres⟩ := Prod.mk.injEq .. |>.mp h
      subst hs'; subst hres
      exact ⟨rfl, rfl, fun _ => ⟨htx, rfl, not_le.mp hts, rfl, rfl⟩,
        fun hx => by simp at hx⟩
    next htx =>
      obtain ⟨hs', hres⟩ := Prod.mk.injEq .. |>.mp h
      subst hs'; subst hres
      exact ⟨rfl, rfl, fun hx => by simp at hx,
        fun _ => ⟨rfl, fun _ => rfl, fun hx => by simp at hx⟩⟩

/-- Inversion for the queue-driven sell branch. -/
theorem sell_branch_inv {cfg : Config} {env : CycleEnv} {s : BotState}
    {a : Addr} {amount : ℤ} {s' : BotState} {res : CycleResult}
    (h : sell_branch cfg env s a amount = (s', res)) :
    res.attempted = some (a, Action.sell) ∧ res.forced = false ∧
      (res.executed = true →
        env.tx_ok = true ∧
        res.amount = pyInt ((amount : ℚ) * env.sell_fraction) ∧
        0 < res.amount ∧
        sell_now_decision cfg env.now (cycle_price cfg env) (s.states a) = true ∧
        s'.states = Function.update s.states a
          ⟨none, none, (s.states a).sell_count + 1⟩ ∧
        res.sleep = env.stagger) ∧
      (res.executed = false → s' = s ∧
        (res.submitted = true → res.sleep = 5) ∧
        (res.submitted = false → res.sleep = 0)) := by
  simp only [sell_branch] at h
  split at h
  next hamt =>
    obtain ⟨hs', hres⟩ := Prod.mk.injEq .. |>.mp h
    subst hs'; subst hres
    exact ⟨rfl, rfl, fun hx => by simp at hx,
      fun _ => ⟨rfl, fun hx => by simp at hx, fun _ => rfl⟩⟩
  next hamt =>
    split at h
    next hdec =>
      split at h
      next htx =>
        obtain ⟨hs', hres⟩ := Prod.mk.injEq .. |>.mp h
        subst hs'; subst hres
        exact ⟨rfl, rfl, fun _ => ⟨htx, rfl, not_le.mp hamt, hdec, rfl, rfl⟩,
          fun hx => by simp at hx⟩
      next htx =>
        obtain ⟨hs', hres⟩ := Prod.mk.injEq .. |>.mp h
        subst hs'; subst hres
        exact ⟨rfl, rfl, fun hx => by simp at hx,
          fun _ => ⟨rfl, fun _ => rfl, fun hx => by simp at hx⟩⟩
    next hdec =>
      obtain ⟨hs', hres⟩ := Prod.mk.injEq .. |>.mp h
      subst hs'; subst hres
      exact ⟨rfl, rfl, fun hx => by simp at hx,
        fun _ => ⟨rfl, fun hx => by simp at hx, fun _ => rfl⟩⟩

/-- Inversion for the no-BNB forced-sell fallback. -/
theorem forced_sell_inv {env : CycleEnv} {s : BotState}
    {s' : BotState} {res : CycleResult}
    (h : forced_sell_result env s = (s', res)) :
    (res.attempted = none →
       s' = s ∧ res.executed = false ∧ res.submitted = false ∧ res.sleep = 5) ∧
    (∀ a act, res.attempted = some (a, act) →
       act = Action.sell ∧ res.forced = true ∧ res.submitted = true ∧
       0 < env.token_bal a ∧
       res.amount = pyInt ((env.token_bal a : ℚ) * forced_sell_pct (s.states a)) ∧
       0 < res.amount ∧ res.sleep = env.stagger ∧
       (res.executed = true → env.tx_ok = true ∧
          s'.states = Function.update s.states a
            ⟨none, none, (s.states a).sell_count + 1⟩) ∧
       (res.executed = false → s' = s)) := by
  simp only [forced_sell_result] at h
  split at h
  next hempty =>
    obtain ⟨hs', hres⟩ := Prod.mk.injEq .. |>.mp h
    subst hs'; subst hres
    exact ⟨fun _ => ⟨rfl, rfl, rfl, rfl⟩, fun a act hx => by simp at hx⟩
  next hempty =>
    have hne : sell_candidatesFor env s.accounts ≠ [] := by
      intro hnil
      rw [hnil] at hempty
      simp at hempty
    have hchar : (pickFrom (sell_candidatesFor env s.accounts) env.pick).2
        = env.token_bal (pickFrom (sell_candidatesFor env s.accounts) env.pick).1
        ∧ 0 < (pickFrom (sell_candidatesFor env s.accounts) env.pick).2 :=
      mem_sell_candidatesFor (pickFrom_mem hne env.pick)
    split at h
    next hamt =>
      split at h
      next htx =>
        obtain ⟨hs', hres⟩ := Prod.mk.injEq .. |>.mp h
        subst hs'; subst hres
        refine ⟨fun hx => by simp at hx, fun a act hx => ?_⟩
        obtain ⟨hxa, hxact⟩ := Prod.mk.injEq .. |>.mp (Option.some.injEq .. |>.mp hx)
        subst hxa; subst hxact
        refine ⟨rfl, rfl, rfl, hchar.1 ▸ hchar.2, by rw [← hchar.1], hamt, rfl,
          fun _ => ⟨htx, rfl⟩, fun hx => by simp at hx⟩
      next htx =>
        obtain ⟨hs', hres⟩ := Prod.mk.injEq .. |>.mp h
        subst hs'; subst hres
        refine ⟨fun hx => by simp at hx, fun a act hx => ?_⟩
        obtain ⟨hxa, hxact⟩ := Prod.mk.injEq .. |>.mp (Option.some.injEq .. |>.mp hx)
        subst hxa; subst hxact
        refine ⟨rfl, rfl, rfl, hchar.1 ▸ hchar.2, by rw [← hchar.1], hamt, rfl,
          fun hx => by simp at hx, fun _ => rfl⟩
    next hamt =>
      obtain ⟨hs', hres⟩ := Prod.mk.injEq .. |>.mp h
      subst hs'; subst hres
      exact ⟨fun _ => ⟨rfl, rfl, rfl, rfl⟩, fun a act hx => by simp at hx⟩

/-- Control-flow inversion for the dispatch on a popped action token. -/
theorem dispatch_inv (cfg : Config) (env : CycleEnv) (s : BotState)
    (action : Action) :
    (dispatch cfg env s action = (s, ⟨none, false, false, false, 0, 5⟩) ∧
       action = Action.sell) ∨
    (dispatch cfg env s action = forced_sell_result env s ∧
       action = Action.buy) ∨
    (∃ a amount, (a, amount) ∈ candidatesFor cfg env s.accounts Action.buy ∧
       action = Action.buy ∧
       dispatch cfg env s action = buy_branch cfg env s a amount) ∨
    (∃ a amount, (a, amount) ∈ candidatesFor cfg env s.accounts Action.sell ∧
       action = Action.sell ∧
       dispatch cfg env s action = sell_branch cfg env s a amount) := by
  simp only [dispatch]
  by_cases hemp : (candidatesFor cfg env s.accounts action).isEmpty
  · rw [if_pos hemp]
    cases action
    · exact Or.inr (Or.inl ⟨rfl, rfl⟩)
    · exact Or.inl ⟨rfl, rfl⟩
  · rw [if_neg hemp]
    have hne : candidatesFor cfg env s.accounts action ≠ [] := by
      intro hnil
      rw [hnil] at hemp
      simp at hemp
    have hmem := pickFrom_mem hne env.pick
    cases action
    · exact Or.inr (Or.inr (Or.inl ⟨_, _, hmem, rfl, rfl⟩))
    · exact Or.inr (Or.inr (Or.inr ⟨_, _, hmem, rfl, rfl⟩))

/-- Control-flow inversion for one full cycle: either nothing was
dispatched, or the cycle ran the forced-sell fallback, the buy branch or the
sell branch on the queue-popped state, whose account map and
`last_received_bnb` coincide with the original ones; the popped token is the
head of the (possibly refilled) queue. -/
theorem cycle_step_inv (cfg : Config) (env : CycleEnv) (s0 : BotState) :
    ∃ s : BotState, s.states = s0.states ∧
      s.last_received_bnb = s0.last_received_bnb ∧
      (((cycle_step cfg env s0).2 = ⟨none, false, false, false, 0, 0⟩ ∧
          (cycle_step cfg env s0).1.states = s0.states) ∨
       ((cycle_step cfg env s0).2 = ⟨none, false, false, false, 0, 5⟩ ∧
          (cycle_step cfg env s0).1.states = s0.states ∧
          next_action env.shuffle s0 = some Action.sell) ∨
       (cycle_step cfg env s0 = forced_sell_result env s ∧
          next_action env.shuffle s0 = some Action.buy) ∨
       (∃ a amount,
          (a, amount) ∈ candidatesFor cfg env s.accounts Action.buy ∧
          cycle_step cfg env s0 = buy_branch cfg env s a amount ∧
          next_action env.shuffle s0 = some Action.buy) ∨
       (∃ a amount,
          (a, amount) ∈ candidatesFor cfg env s.accounts Action.sell ∧
          cycle_step cfg env s0 = sell_branch cfg env s a amount ∧
          next_action env.shuffle s0 = some Action.sell)) := by
  set s1 := if s0.queue.isEmpty then refill_queue env.shuffle s0 else s0
    with hs1
  have hst1 : s1.states = s0.states := by
    rw [hs1]; split <;> rfl
  have hlast1 : s1.last_received_bnb = s0.last_received_bnb := by
    rw [hs1]; split <;> rfl
  have hstep : cycle_step cfg env s0 =
      match s1.queue with
      | [] => (s1, ⟨none, false, false, false, 0, 0⟩)
      | action :: rest => dispatch cfg env { s1 with queue := rest } action :=
    rfl
  have hna : next_action env.shuffle s0 = s1.queue.head? := rfl
  cases hq : s1.queue with
  | nil =>
    refine ⟨s0, rfl, rfl, Or.inl ?_⟩
    rw [hstep, hq]
    exact ⟨rfl, hst1⟩
  | cons action rest =>
    have hss : ({ s1 with queue := rest } : BotState).states = s0.states :=
      hst1
    have hsl : ({ s1 with queue := rest } : BotState).last_received_bnb
        = s0.last_received_bnb := hlast1
    have hstep2 : cycle_step cfg env s0 =
        dispatch cfg env { s1 with queue := rest } action := by
      rw [hstep, hq]
    have hna2 : next_action env.shuffle s0 = some action := by
      rw [hna, hq]; rfl
    rcases dispatch_inv cfg env { s1 with queue := rest } action with
      ⟨hd, hact⟩ | ⟨hd, hact⟩ | ⟨a, m, hmem, hact, hd⟩ | ⟨a, m, hmem, hact, hd⟩
    · subst hact
      refine ⟨{ s1 with queue := rest }, hss, hsl,
        Or.inr (Or.inl ⟨?_, ?_, hna2⟩)⟩
      · rw [hstep2, hd]
      · rw [hstep2, hd]; exact hss
    · subst hact
      exact ⟨{ s1 with queue := rest }, hss, hsl,
        Or.inr (Or.inr (Or.inl ⟨hstep2.trans hd, hna2⟩))⟩
    · subst hact
      exact ⟨{ s1 with queue := rest }, hss, hsl,
        Or.inr (Or.inr (Or.inr (Or.inl
          ⟨a, m, hmem, hstep2.trans hd, hna2⟩)))⟩
    · subst hact
      exact ⟨{ s1 with queue := rest }, hss, hsl,
        Or.inr (Or.inr (Or.inr (Or.inr
          ⟨a, m, hmem, hstep2.trans hd, hna2⟩)))⟩

/-! ## Claim C1 — minimum acceptable output of executed trades -/

/-- Counterexample for claim C1: at a quoted output of 100 with the default
slippage tolerance 0.70, the claim requires `min_out = 70`, but both trade
builders pass `amount_out_min = 0` to the router for every executed buy and
sell. -/
theorem C1_counterexample :
    (buy_tokens 0 100).map SwapCall.amount_out_min = some 0 ∧
    (sell_tokens 0 100).map SwapCall.amount_out_min = some 0 ∧
    (0 : ℤ) ≠ ⌊(100 : ℚ) * SLIPPAGE_TOLERANCE⌋ := by
  refine ⟨by decide, by decide, ?_⟩
  norm_num [SLIPPAGE_TOLERANCE]

/-- Claim C1, amended: for every executed buy and every executed sell the
minimum acceptable output passed to the router is the constant 0; no
slippage-derived minimum is ever enforced (the configured slippage tolerance
is unused by the trade path). -/
theorem C1_amended_min_out_always_zero :
    (∀ now bnb_wei c, buy_tokens now bnb_wei = some c →
      c.amount_out_min = 0) ∧
    (∀ now amount_in c, sell_tokens now amount_in = some c →
      c.amount_out_min = 0) := by
  constructor
  · intro now w c h
    unfold buy_tokens at h
    split at h
    · simp at h
    · injection h with h'
      subst h'
      rfl
  · intro now amt c h
    unfold sell_tokens at h
    split at h
    · simp at h
    · injection h with h'
      subst h'
      rfl

/-- Witness for C1's amended theorem at a concrete buy and sell. -/
theorem C1_witness :
    buy_tokens 7 100 = some ⟨100, 0, [Asset.wbnb, Asset.token], 187⟩ ∧
    SwapCall.amount_out_min ⟨100, 0, [Asset.wbnb, Asset.token], 187⟩ = 0 ∧
    sell_tokens 7 100 = some ⟨100, 0, [Asset.token, Asset.wbnb], 187⟩ ∧
    SwapCall.amount_out_min ⟨100, 0, [Asset.token, Asset.wbnb], 187⟩ = 0 :=
  ⟨by decide,
   C1_amended_min_out_always_zero.1 7 100
     ⟨100, 0, [Asset.wbnb, Asset.token], 187⟩ (by decide),
   by decide,
   C1_amended_min_out_always_zero.2 7 100
     ⟨100, 0, [Asset.token, Asset.wbnb], 187⟩ (by decide)⟩

/-! ## Claim C6 — route selection -/

/-- Counterexample for claim C6: with a successful direct-path call quoting
100 and a via-path quoting 120, the code uses the direct quote 100 and the
direct path — it does not select the strictly greater 120 quote. -/
theorem C6_counterexample :
    route_quote ⟨some 100, some 120⟩ = 100 ∧
    route_path ⟨some 100, some 120⟩ = some [Asset.token, Asset.usdt] ∧
    (100 : ℤ) ≠ 120 := by
  decide

/-- Claim C6, amended: route selection performs no quote comparison.  The
direct path's quote is used whenever its call succeeds (so ties — and every
other outcome of the second path — keep the first-evaluated, direct path,
as the tie half of the claim states); the via-WBNB path is queried only when
the direct call raises, and when both raise the quote is 0 and no path is
selected. -/
theorem C6_amended_route_first_success :
    (∀ (q : ℤ) (o2 : Option ℤ),
      route_quote ⟨some q, o2⟩ = q ∧
      route_path ⟨some q, o2⟩ = some [Asset.token, Asset.usdt]) ∧
    (∀ q : ℤ,
      route_quote ⟨none, some q⟩ = q ∧
      route_path ⟨none, some q⟩ = some [Asset.token, Asset.wbnb, Asset.usdt]) ∧
    route_quote ⟨none, none⟩ = 0 ∧
    route_path ⟨none, none⟩ = none :=
  ⟨fun _ _ => ⟨rfl, rfl⟩, fun _ => ⟨rfl, rfl⟩, rfl, rfl⟩

/-! ## Claim C8 — price cache TTL behaviour -/

/-- Claim C8 (confirmed): two price lookups within the TTL window of the
last successful fetch both return the identical cached value, leave the
cache unchanged and issue no external call; once the TTL has elapsed the
next lookup issues an external call. -/
theorem C8_price_cache_ttl (ttl : ℚ) (dec : ℕ) (cache : PriceCache) (v : ℚ)
    (o1 o2 o3 : OracleResponse) (now1 now2 now3 : ℚ)
    (hv : cache.v = some v)
    (h1 : now1 - cache.t ≤ ttl) (h2 : now2 - cache.t ≤ ttl)
    (h3 : ttl < now3 - cache.t) :
    get_token_price_usd ttl dec now1 o1 cache = (some v, cache, false) ∧
    get_token_price_usd ttl dec now2 o2
        (get_token_price_usd ttl dec now1 o1 cache).2.1
      = (some v, cache, false) ∧
    (get_token_price_usd ttl dec now3 o3 cache).2.2 = true := by
  have e1 : get_token_price_usd ttl dec now1 o1 cache
      = (some v, cache, false) := by
    unfold get_token_price_usd
    rw [hv]
    simp [h1]
  refine ⟨e1, ?_, ?_⟩
  · rw [e1]
    unfold get_token_price_usd
    rw [hv]
    simp [h2]
  · unfold get_token_price_usd
    rw [hv]
    by_cases hz : route_quote o3 = 0 <;>
      simp [not_le.mpr h3, hz]

/-- Witness for C8 at a concrete cache and clock. -/
theorem C8_witness :
    get_token_price_usd 10 0 3 ⟨none, none⟩ ⟨0, some 5⟩
      = (some 5, ⟨0, some 5⟩, false) ∧
    get_token_price_usd 10 0 7 ⟨none, none⟩
        (get_token_price_usd 10 0 3 ⟨none, none⟩ ⟨0, some 5⟩).2.1
      = (some 5, ⟨0, some 5⟩, false) ∧
    (get_token_price_usd 10 0 11 ⟨some 42, none⟩ ⟨0, some 5⟩).2.2 = true :=
  C8_price_cache_ttl 10 0 ⟨0, some 5⟩ 5 ⟨none, none⟩ ⟨none, none⟩
    ⟨some 42, none⟩ 3 7 11 rfl (by norm_num) (by norm_num) (by norm_num)

/-! ## Claim C4 — Fibonacci-driven queue refills -/

/-- The action tokens one refill appends to the right of the queue. -/
def refill_appended (shuffle : List Action → List Action) (s : BotState) :
    List Action :=
  (refill_queue shuffle s).queue.drop s.queue.length

/-- What any single refill does, for any shuffle that permutes its input:
each generator advances exactly once, and the appended segment holds exactly
`buy_count` buy tokens and `sell_count` sell tokens. -/
theorem refill_queue_spec (shuffle : List Action → List Action)
    (hs : ∀ l, (shuffle l).Perm l) (s : BotState) :
    (refill_queue shuffle s).buy_fib = (fib_gen_next s.buy_fib).2 ∧
    (refill_queue shuffle s).sell_fib = (fib_gen_next s.sell_fib).2 ∧
    (refill_appended shuffle s).count Action.buy
        = (fib_gen_next s.buy_fib).1 ∧
    (refill_appended shuffle s).count Action.sell
        = (fib_gen_next s.sell_fib).1 ∧
    (refill_appended shuffle s).length
        = (fib_gen_next s.buy_fib).1 + (fib_gen_next s.sell_fib).1 := by
  have hq : refill_appended shuffle s
      = shuffle (List.replicate (fib_gen_next s.buy_fib).1 Action.buy
          ++ List.replicate (fib_gen_next s.sell_fib).1 Action.sell) := by
    simp only [refill_appended, refill_queue]
    exact List.drop_left _ _
  have hperm := hs (List.replicate (fib_gen_next s.buy_fib).1 Action.buy
      ++ List.replicate (fib_gen_next s.sell_fib).1 Action.sell)
  refine ⟨rfl, rfl, ?_, ?_, ?_⟩
  · rw [hq, hperm.count_eq]
    simp [List.count_append, List.count_replicate]
  · rw [hq, hperm.count_eq]
    simp [List.count_append, List.count_replicate]
  · rw [hq, hperm.length_eq]
    simp

/-- Claim C4 (confirmed): with `buy_fib` seeded to start at 2 and `sell_fib`
seeded to start at 1, each refill advances each generator exactly once and
appends exactly `buy_count` buy tokens and `sell_count` sell tokens, so
three successive refills append (2,1), then (3,2), then (5,3) buy/sell
tokens (of total sizes 3, 5, 8). -/
theorem C4_fibonacci_refill_counts (shuffle : List Action → List Action)
    (hs : ∀ l, (shuffle l).Perm l) (s : BotState)
    (hb : s.buy_fib = seeded_buy_fib) (hsf : s.sell_fib = seeded_sell_fib) :
    (refill_queue shuffle s).buy_fib = (fib_gen_next s.buy_fib).2 ∧
    (refill_queue shuffle s).sell_fib = (fib_gen_next s.sell_fib).2 ∧
    (refill_appended shuffle s).count Action.buy = 2 ∧
    (refill_appended shuffle s).count Action.sell = 1 ∧
    (refill_appended shuffle s).length = 3 ∧
    (refill_appended shuffle (refill_queue shuffle s)).count Action.buy = 3 ∧
    (refill_appended shuffle (refill_queue shuffle s)).count Action.sell = 2 ∧
    (refill_appended shuffle (refill_queue shuffle s)).length = 5 ∧
    (refill_appended shuffle
        (refill_queue shuffle (refill_queue shuffle s))).count Action.buy
      = 5 ∧
    (refill_appended shuffle
        (refill_queue shuffle (refill_queue shuffle s))).count Action.sell
      = 3 ∧
    (refill_appended shuffle
        (refill_queue shuffle (refill_queue shuffle s))).length = 8 := by
  obtain ⟨hb1, hs1, hc1b, hc1s, hl1⟩ := refill_queue_spec shuffle hs s
  obtain ⟨hb2, hs2, hc2b, hc2s, hl2⟩ :=
    refill_queue_spec shuffle hs (refill_queue shuffle s)
  obtain ⟨-, -, hc3b, hc3s, hl3⟩ :=
    refill_queue_spec shuffle hs (refill_queue shuffle (refill_queue shuffle s))
  refine ⟨hb1, hs1, hc1b.trans ?_, hc1s.trans ?_, hl1.trans ?_,
    hc2b.trans ?_, hc2s.trans ?_, hl2.trans ?_,
    hc3b.trans ?_, hc3s.trans ?_, hl3.trans ?_⟩
  · rw [hb]; rfl
  · rw [hsf]; rfl
  · rw [hb, hsf]; rfl
  · rw [hb1, hb]; rfl
  · rw [hs1, hsf]; rfl
  · rw [hb1, hb, hs1, hsf]; rfl
  · rw [hb2, hb1, hb]; rfl
  · rw [hs2, hs1, hsf]; rfl
  · rw [hb2, hb1, hb, hs2, hs1, hsf]; rfl

/-- A fresh single-account bot state with the seeded generators and an empty
queue, as `run` builds it before the first refill. -/
def C4_start : BotState :=
  { accounts := [0]
    states := fun _ => ⟨none, none, 0⟩
    queue := []
    buy_fib := seeded_buy_fib
    sell_fib := seeded_sell_fib
    last_received_bnb := 0 }

/-- Witness for C4 with the identity shuffle on the freshly initialised
single-account state. -/
theorem C4_witness :
    (refill_queue id C4_start).buy_fib = (fib_gen_next C4_start.buy_fib).2 ∧
    (refill_queue id C4_start).sell_fib = (fib_gen_next C4_start.sell_fib).2 ∧
    (refill_appended id C4_start).count Action.buy = 2 ∧
    (refill_appended id C4_start).count Action.sell = 1 ∧
    (refill_appended id C4_start).length = 3 ∧
    (refill_appended id (refill_queue id C4_start)).count Action.buy = 3 ∧
    (refill_appended id (refill_queue id C4_start)).count Action.sell = 2 ∧
    (refill_appended id (refill_queue id C4_start)).length = 5 ∧
    (refill_appended id
        (refill_queue id (refill_queue id C4_start))).count Action.buy = 5 ∧
    (refill_appended id
        (refill_queue id (refill_queue id C4_start))).count Action.sell = 3 ∧
    (refill_appended id
        (refill_queue id (refill_queue id C4_start))).length = 8 :=
  C4_fibonacci_refill_counts id (fun l => List.Perm.refl l) C4_start rfl rfl

/-! ## Claim C2 — minimum hold window before sells -/

/-- Single-account state holding a position entered at time 100 at price 1,
with a sell token at the head of the queue. -/
def C2_state : BotState :=
  { accounts := [0]
    states := fun _ => ⟨some 100, some 1, 0⟩
    queue := [Action.sell]
    buy_fib := seeded_buy_fib
    sell_fib := seeded_sell_fib
    last_received_bnb := 0 }

/-- Cycle observations at the same instant the position was entered
(age 0): the fetched price 2 is above the 1.05 profit target. -/
def C2_env : CycleEnv :=
  { now := 100
    price := some 2
    token_bal := fun _ => 1000
    bnb_bal := fun _ => 0
    pick := 0
    fraction := 1 / 20
    sell_fraction := 7 / 20
    tx_ok := true
    received_bnb := 500
    shuffle := id
    stagger := 4 }

/-- Evaluation of one cycle on the C2 scenario. -/
theorem C2_cycle_eval :
    (cycle_step defaultConfig C2_env C2_state).2
      = ⟨some (0, Action.sell), false, true, true, 350, 4⟩ := by
  norm_num [cycle_step, dispatch, candidatesFor, pickFrom, sell_branch,
    sell_now_decision, profit_trigger, age, cycle_price, pyInt,
    C2_env, C2_state, defaultConfig, PROFIT_TARGET, refill_queue,
    List.filterMap]

/-- Counterexample for claim C2: a queue-driven sell is executed at age 0 —
before any hold time has elapsed since the recorded entry — because the
profit-target override sets `sell_now` regardless of age.  The default
minimum hold is 10 s. -/
theorem C2_counterexample :
    (cycle_step defaultConfig C2_env C2_state).2.executed = true ∧
    (cycle_step defaultConfig C2_env C2_state).2.attempted
      = some (0, Action.sell) ∧
    (C2_state.states 0).entry_time = some 100 ∧
    C2_env.now - 100 = 0 ∧
    (0 : ℚ) < defaultConfig.hold_min := by
  refine ⟨by rw [C2_cycle_eval], by rw [C2_cycle_eval], rfl, ?_, ?_⟩
  · norm_num [C2_env]
  · norm_num [defaultConfig]

/-- Claim C2, amended: only a queue-driven sell that fires no profit
trigger waits for the hold threshold — `HOLD_MIN` in volume mode, `HOLD_MAX`
otherwise.  A profit-target-triggered sell, and any forced-sell fallback,
may execute before `min_hold_seconds` has elapsed since the entry. -/
theorem C2_amended_hold_window (cfg : Config) (env : CycleEnv)
    (s0 : BotState) (a : Addr) (t : ℚ)
    (hex : (cycle_step cfg env s0).2.executed = true)
    (hatt : (cycle_step cfg env s0).2.attempted = some (a, Action.sell))
    (hnf : (cycle_step cfg env s0).2.forced = false)
    (hentry : (s0.states a).entry_time = some t) :
    (cfg.volume_mode = true → cfg.hold_min ≤ env.now - t) ∧
    (cfg.volume_mode = false →
      cfg.hold_max ≤ env.now - t ∨
      profit_trigger (cycle_price cfg env) (s0.states a) = true) := by
  obtain ⟨s, hss, hsl, hcase⟩ := cycle_step_inv cfg env s0
  rcases hcase with ⟨hres, _⟩ | ⟨hres, _, _⟩ | ⟨hstep, _⟩ |
    ⟨a', m, hmem, hstep, _⟩ | ⟨a', m, hmem, hstep, _⟩
  · rw [hres] at hatt
    simp at hatt
  · rw [hres] at hatt
    simp at hatt
  · obtain ⟨-, hsome⟩ := forced_sell_inv (hstep.symm.trans Prod.mk.eta.symm)
    obtain ⟨-, hforced, -⟩ := hsome a Action.sell hatt
    rw [hnf] at hforced
    exact Bool.noConfusion hforced
  · obtain ⟨hattB, -, -, -⟩ := buy_branch_inv (hstep.symm.trans Prod.mk.eta.symm)
    rw [hattB] at hatt
    simp at hatt
  · obtain ⟨hattS, -, hexec, -⟩ := sell_branch_inv (hstep.symm.trans Prod.mk.eta.symm)
    have ha' : a' = a := by
      rw [hattS] at hatt
      exact (Prod.mk.injEq .. |>.mp (Option.some.injEq .. |>.mp hatt)).1
    subst ha'
    obtain ⟨-, -, -, hdec, -⟩ := hexec hex
    rw [hss] at hdec
    simp only [sell_now_decision, hentry, age] at hdec
    constructor
    · intro hvm
      rw [hvm] at hdec
      simp at hdec
      exact hdec
    · intro hvm
      rw [hvm] at hdec
      simp at hdec
      rcases hdec with h | h
      · exact Or.inl h
      · exact Or.inr h

/-- Witness for C2's amended theorem: a queue-driven sell executed 100 s
after entry, past the 18-second default `HOLD_MAX`. -/
def C2w_state : BotState :=
  { accounts := [0]
    states := fun _ => ⟨some 0, some 1, 0⟩
    queue := [Action.sell]
    buy_fib := seeded_buy_fib
    sell_fib := seeded_sell_fib
    last_received_bnb := 0 }

/-- Cycle observations for the C2 witness: price 1 (no profit trigger),
age 100 ≥ HOLD_MAX = 18. -/
def C2w_env : CycleEnv :=
  { now := 100
    price := some 1
    token_bal := fun _ => 1000
    bnb_bal := fun _ => 0
    pick := 0
    fraction := 1 / 20
    sell_fraction := 7 / 20
    tx_ok := true
    received_bnb := 500
    shuffle := id
    stagger := 4 }

/-- Evaluation of one cycle on the C2 witness scenario. -/
theorem C2w_cycle_eval :
    (cycle_step defaultConfig C2w_env C2w_state).2
      = ⟨some (0, Action.sell), false, true, true, 350, 4⟩ := by
  norm_num [cycle_step, dispatch, candidatesFor, pickFrom, sell_branch,
    sell_now_decision, profit_trigger, age, cycle_price, pyInt,
    C2w_env, C2w_state, defaultConfig, PROFIT_TARGET, refill_queue,
    List.filterMap]

/-- Witness for C2's amended theorem at a concrete executed sell. -/
theorem C2_witness :
    defaultConfig.hold_max ≤ C2w_env.now - 0 ∨
    profit_trigger (cycle_price defaultConfig C2w_env)
      (C2w_state.states 0) = true :=
  (C2_amended_hold_window defaultConfig C2w_env C2w_state 0 0
    (by rw [C2w_cycle_eval]) (by rw [C2w_cycle_eval])
    (by rw [C2w_cycle_eval]) rfl).2 rfl

/-! ## Claim C3 — no forced-buy bias -/

/-- Single-account state whose account has a sell streak of 2 (two
consecutive sells since the last buy, `sell_count = 2`, so any buy streak is
0 < 2), holds 1000 tokens, and faces a sell token at the queue head. -/
def C3_state : BotState :=
  { accounts := [0]
    states := fun _ => ⟨some 0, some 1, 2⟩
    queue := [Action.sell]
    buy_fib := seeded_buy_fib
    sell_fib := seeded_sell_fib
    last_received_bnb := 0 }

/-- Cycle observations for the C3 counterexample: the account is funded for
either action (positive spendable BNB and positive token balance). -/
def C3_env : CycleEnv :=
  { now := 100
    price := some 1
    token_bal := fun _ => 1000
    bnb_bal := fun _ => 1002000000000000000
    pick := 0
    fraction := 1 / 20
    sell_fraction := 7 / 20
    tx_ok := true
    received_bnb := 500
    shuffle := id
    stagger := 4 }

/-- Evaluation of one cycle on the C3 scenario. -/
theorem C3_cycle_eval :
    (cycle_step defaultConfig C3_env C3_state).2
      = ⟨some (0, Action.sell), false, true, true, 350, 4⟩ := by
  norm_num [cycle_step, dispatch, candidatesFor, pickFrom, sell_branch,
    sell_now_decision, profit_trigger, age, cycle_price, pyInt,
    C3_env, C3_state, defaultConfig, PROFIT_TARGET, refill_queue,
    List.filterMap]

/-- Counterexample for claim C3: with `sell_count = 2` (sell streak 2,
buy streak 0 < 2) the engine does not override the queue — the very next
action it attempts for the account is the queue-driven sell, which
executes, not a buy. -/
theorem C3_counterexample :
    (C3_state.states 0).sell_count = 2 ∧
    (cycle_step defaultConfig C3_env C3_state).2.attempted
      = some (0, Action.sell) ∧
    (cycle_step defaultConfig C3_env C3_state).2.executed = true :=
  ⟨rfl, by rw [C3_cycle_eval], by rw [C3_cycle_eval]⟩

/-- Claim C3, amended: the engine has no forced-buy bias and keeps no
streak counters.  Whatever the per-account state, the action attempted on a
cycle is the head of the (possibly refilled) queue; the only override is the
no-BNB fallback, which turns a buy token into a forced sell — never the
reverse. -/
theorem C3_amended_queue_decides (cfg : Config) (env : CycleEnv)
    (s0 : BotState) (a : Addr) (act : Action)
    (hatt : (cycle_step cfg env s0).2.attempted = some (a, act)) :
    ((cycle_step cfg env s0).2.forced = false →
      next_action env.shuffle s0 = some act) ∧
    ((cycle_step cfg env s0).2.forced = true →
      act = Action.sell ∧ next_action env.shuffle s0 = some Action.buy) := by
  obtain ⟨s, hss, hsl, hcase⟩ := cycle_step_inv cfg env s0
  rcases hcase with ⟨hres, _⟩ | ⟨hres, _, _⟩ | ⟨hstep, hna⟩ |
    ⟨a', m, hmem, hstep, hna⟩ | ⟨a', m, hmem, hstep, hna⟩
  · rw [hres] at hatt
    simp at hatt
  · rw [hres] at hatt
    simp at hatt
  · obtain ⟨-, hsome⟩ := forced_sell_inv (hstep.symm.trans Prod.mk.eta.symm)
    obtain ⟨hact, hforced, -⟩ := hsome a act hatt
    refine ⟨fun h0 => ?_, fun _ => ⟨hact, hna⟩⟩
    rw [h0] at hforced
    exact Bool.noConfusion hforced
  · obtain ⟨hattB, hforced, -, -⟩ := buy_branch_inv (hstep.symm.trans Prod.mk.eta.symm)
    have hact : Action.buy = act := by
      rw [hattB] at hatt
      exact (Prod.mk.injEq .. |>.mp (Option.some.injEq .. |>.mp hatt)).2
    refine ⟨fun _ => hact ▸ hna, fun h1 => ?_⟩
    rw [hforced] at h1
    exact Bool.noConfusion h1
  · obtain ⟨hattS, hforced, -, -⟩ := sell_branch_inv (hstep.symm.trans Prod.mk.eta.symm)
    have hact : Action.sell = act := by
      rw [hattS] at hatt
      exact (Prod.mk.injEq .. |>.mp (Option.some.injEq .. |>.mp hatt)).2
    refine ⟨fun _ => hact ▸ hna, fun h1 => ?_⟩
    rw [hforced] at h1
    exact Bool.noConfusion h1

/-- Witness for C3's amended theorem at the concrete C3 scenario. -/
theorem C3_witness :
    next_action C3_env.shuffle C3_state = some Action.sell :=
  (C3_amended_queue_decides defaultConfig C3_env C3_state 0 Action.sell
    (by rw [C3_cycle_eval])).1 (by rw [C3_cycle_eval])

/-! ## Claim C5 — entry price update on buys -/

/-- Single-account state holding an entry at price 10, with a buy token at
the queue head. -/
def C5_state : BotState :=
  { accounts := [0]
    states := fun _ => ⟨some 50, some 10, 3⟩
    queue := [Action.buy]
    buy_fib := seeded_buy_fib
    sell_fib := seeded_sell_fib
    last_received_bnb := 0 }

/-- Cycle observations for C5: a fresh price 20 and 1 BNB of spendable
balance above the gas reserve. -/
def C5_env : CycleEnv :=
  { now := 100
    price := some 20
    token_bal := fun _ => 1000
    bnb_bal := fun _ => 1002000000000000000
    pick := 0
    fraction := 1 / 20
    sell_fraction := 7 / 20
    tx_ok := true
    received_bnb := 500
    shuffle := id
    stagger := 4 }

/-- Evaluation of one cycle on the C5 scenario: a buy of
`int(10^18 × 0.05) = 5·10^16` wei executes. -/
theorem C5_cycle_eval :
    (cycle_step defaultConfig C5_env C5_state).2
      = ⟨some (0, Action.buy), false, true, true, 50000000000000000, 4⟩ := by
  norm_num [cycle_step, dispatch, candidatesFor, pickFrom, buy_branch,
    buy_to_spend, cycle_price, pyInt, spendable_of,
    C5_env, C5_state, defaultConfig, refill_queue, List.filterMap, min_def]

/-- Evaluation of the account state after the C5 buy. -/
theorem C5_states_eval :
    (cycle_step defaultConfig C5_env C5_state).1.states 0
      = ⟨some 100, some 20, 0⟩ := by
  norm_num [cycle_step, dispatch, candidatesFor, pickFrom, buy_branch,
    buy_to_spend, cycle_price, pyInt, spendable_of,
    C5_env, C5_state, defaultConfig, refill_queue, List.filterMap, min_def,
    Function.update_same]

/-- Counterexample for claim C5: a successful buy with previous entry price
10 and fresh reference price 20 stores entry price 20 — the previous value
is discarded outright, not averaged to (10 + 20) / 2 = 15. -/
theorem C5_counterexample :
    (C5_state.states 0).entry_price = some 10 ∧
    (cycle_step defaultConfig C5_env C5_state).2.executed = true ∧
    (cycle_step defaultConfig C5_env C5_state).2.attempted
      = some (0, Action.buy) ∧
    ((cycle_step defaultConfig C5_env C5_state).1.states 0).entry_price
      = some 20 ∧
    (20 : ℚ) ≠ (10 + 20) / 2 := by
  refine ⟨rfl, by rw [C5_cycle_eval], by rw [C5_cycle_eval],
    by rw [C5_states_eval], by norm_num⟩

/-- Claim C5, amended: on every executed buy the account's entry price is
set to the fetched reference price when one is available (and to 0.0
otherwise, in particular in volume mode), the entry time is set to the
current clock and `sell_count` resets to 0 — the previous entry price is
discarded with no averaging. -/
theorem C5_amended_entry_overwrite (cfg : Config) (env : CycleEnv)
    (s0 : BotState) (a : Addr)
    (hex : (cycle_step cfg env s0).2.executed = true)
    (hatt : (cycle_step cfg env s0).2.attempted = some (a, Action.buy)) :
    (cycle_step cfg env s0).1.states a
      = ⟨some env.now, some ((cycle_price cfg env).getD 0), 0⟩ := by
  obtain ⟨s, hss, hsl, hcase⟩ := cycle_step_inv cfg env s0
  rcases hcase with ⟨hres, _⟩ | ⟨hres, _, _⟩ | ⟨hstep, _⟩ |
    ⟨a', m, hmem, hstep, _⟩ | ⟨a', m, hmem, hstep, _⟩
  · rw [hres] at hatt
    simp at hatt
  · rw [hres] at hatt
    simp at hatt
  · obtain ⟨-, hsome⟩ := forced_sell_inv (hstep.symm.trans Prod.mk.eta.symm)
    obtain ⟨hact, -⟩ := hsome a Action.buy hatt
    exact Action.noConfusion hact
  · obtain ⟨hattB, -, hexec, -⟩ :=
      buy_branch_inv (hstep.symm.trans Prod.mk.eta.symm)
    have ha' : a' = a := by
      rw [hattB] at hatt
      exact (Prod.mk.injEq .. |>.mp (Option.some.injEq .. |>.mp hatt)).1
    subst ha'
    obtain ⟨-, -, -, hupd, -⟩ := hexec hex
    rw [hupd, Function.update_same]
  · obtain ⟨hattS, -, -, -⟩ :=
      sell_branch_inv (hstep.symm.trans Prod.mk.eta.symm)
    rw [hattS] at hatt
    simp at hatt

/-- Witness for C5's amended theorem at the concrete C5 buy. -/
theorem C5_witness :
    (cycle_step defaultConfig C5_env C5_state).1.states 0
      = ⟨some C5_env.now,
         some ((cycle_price defaultConfig C5_env).getD 0), 0⟩ :=
  C5_amended_entry_overwrite defaultConfig C5_env C5_state 0
    (by rw [C5_cycle_eval]) (by rw [C5_cycle_eval])

/-! ## Claim C7 — buy sizing bounds -/

theorem buy_to_spend_le_cap (last amount : ℤ) (fraction : ℚ) :
    buy_to_spend last amount fraction ≤ pyInt ((amount : ℚ) * (3 / 10)) :=
  min_le_right _ _

theorem buy_to_spend_le_fraction {last amount : ℤ} {fraction : ℚ}
    (hl : last ≤ 0) (ha : 0 ≤ amount) (hf : 0 ≤ fraction) :
    ((buy_to_spend last amount fraction : ℤ) : ℚ)
      ≤ (amount : ℚ) * fraction := by
  unfold buy_to_spend
  rw [if_neg (not_lt.mpr hl)]
  have h1 : min (pyInt ((amount : ℚ) * fraction))
      (pyInt ((amount : ℚ) * (3 / 10))) ≤ pyInt ((amount : ℚ) * fraction) :=
    min_le_left _ _
  have h2 : ((pyInt ((amount : ℚ) * fraction) : ℤ) : ℚ)
      ≤ (amount : ℚ) * fraction :=
    pyInt_le (mul_nonneg (by exact_mod_cast ha) hf)
  calc ((min (pyInt ((amount : ℚ) * fraction))
        (pyInt ((amount : ℚ) * (3 / 10))) : ℤ) : ℚ)
      ≤ ((pyInt ((amount : ℚ) * fraction) : ℤ) : ℚ) := by exact_mod_cast h1
    _ ≤ (amount : ℚ) * fraction := h2

/-- Configuration with `POSITION_PCT_MAX` set to 10% (a legitimate env
configuration), all else default. -/
def C7_cfg : Config := { defaultConfig with position_pct_max := 1 / 10 }

/-- Single-account state that recorded 1 BNB of proceeds from the most
recent sell, with a buy token at the queue head. -/
def C7_state : BotState :=
  { accounts := [0]
    states := fun _ => ⟨none, none, 1⟩
    queue := [Action.buy]
    buy_fib := seeded_buy_fib
    sell_fib := seeded_sell_fib
    last_received_bnb := 1000000000000000000 }

/-- Cycle observations for C7: spendable balance 1 BNB; the position
fraction draw 1/20 lies within the configured 1%–10% range. -/
def C7_env : CycleEnv :=
  { now := 100
    price := some 20
    token_bal := fun _ => 0
    bnb_bal := fun _ => 1002000000000000000
    pick := 0
    fraction := 1 / 20
    sell_fraction := 7 / 20
    tx_ok := true
    received_bnb := 500
    shuffle := id
    stagger := 4 }

/-- Evaluation of one cycle on the C7 scenario: the reinvestment branch
spends `min(int(10^18 × 1.05), int(10^18 × 0.3)) = 3·10^17` wei. -/
theorem C7_cycle_eval :
    (cycle_step C7_cfg C7_env C7_state).2
      = ⟨some (0, Action.buy), false, true, true, 300000000000000000, 4⟩ := by
  norm_num [cycle_step, dispatch, candidatesFor, pickFrom, buy_branch,
    buy_to_spend, cycle_price, pyInt, spendable_of,
    C7_env, C7_state, C7_cfg, defaultConfig, refill_queue, List.filterMap,
    min_def]

/-- Counterexample for claim C7: the executed buy spends 0.3 BNB although
`(balance − gas_reserve) × position_pct_max` is only 0.1 BNB — the
reinvestment branch caps at the hard-coded 30%, not at the configured
position-fraction bound, and no absolute floor is enforced anywhere. -/
theorem C7_counterexample :
    (cycle_step C7_cfg C7_env C7_state).2.executed = true ∧
    (cycle_step C7_cfg C7_env C7_state).2.attempted
      = some (0, Action.buy) ∧
    ¬ (((cycle_step C7_cfg C7_env C7_state).2.amount : ℚ)
        ≤ (spendable_of C7_cfg C7_env 0 : ℚ) * C7_cfg.position_pct_max) := by
  refine ⟨by rw [C7_cycle_eval], by rw [C7_cycle_eval], ?_⟩
  rw [C7_cycle_eval]
  have hsp : spendable_of C7_cfg C7_env 0 = 1000000000000000000 := by
    norm_num [spendable_of, C7_env, C7_cfg, defaultConfig]
  rw [hsp]
  norm_num [C7_cfg, defaultConfig]

/-- Claim C7, amended: every executed buy spends a strictly positive amount
bounded by `int(spendable × 0.3)` — the hard-coded 30% cap — and, when no
prior sell proceeds are recorded and the drawn fraction is non-negative, by
`spendable × fraction`; the configured `position_pct_max` is not enforced on
the reinvestment branch, and positivity is the only lower bound (no
absolute floor exists). -/
theorem C7_amended_buy_size_cap (cfg : Config) (env : CycleEnv)
    (s0 : BotState) (a : Addr)
    (hex : (cycle_step cfg env s0).2.executed = true)
    (hatt : (cycle_step cfg env s0).2.attempted = some (a, Action.buy)) :
    0 < (cycle_step cfg env s0).2.amount ∧
    (cycle_step cfg env s0).2.amount
      ≤ pyInt ((spendable_of cfg env a : ℚ) * (3 / 10)) ∧
    (s0.last_received_bnb ≤ 0 → 0 ≤ env.fraction →
      ((cycle_step cfg env s0).2.amount : ℚ)
        ≤ (spendable_of cfg env a : ℚ) * env.fraction) := by
  obtain ⟨s, hss, hsl, hcase⟩ := cycle_step_inv cfg env s0
  rcases hcase with ⟨hres, _⟩ | ⟨hres, _, _⟩ | ⟨hstep, _⟩ |
    ⟨a', m, hmem, hstep, _⟩ | ⟨a', m, hmem, hstep, _⟩
  · rw [hres] at hatt
    simp at hatt
  · rw [hres] at hatt
    simp at hatt
  · obtain ⟨-, hsome⟩ := forced_sell_inv (hstep.symm.trans Prod.mk.eta.symm)
    obtain ⟨hact, -⟩ := hsome a Action.buy hatt
    exact Action.noConfusion hact
  · obtain ⟨hattB, -, hexec, -⟩ :=
      buy_branch_inv (hstep.symm.trans Prod.mk.eta.symm)
    have ha' : a' = a := by
      rw [hattB] at hatt
      exact (Prod.mk.injEq .. |>.mp (Option.some.injEq .. |>.mp hatt)).1
    subst ha'
    obtain ⟨-, hamount, hpos, -, -⟩ := hexec hex
    obtain ⟨hm, hmpos⟩ := mem_candidatesFor_buy hmem
    rw [hm] at hamount
    refine ⟨hpos, ?_, ?_⟩
    · rw [hamount]
      exact buy_to_spend_le_cap _ _ _
    · intro hlr hf
      rw [hamount]
      have hl' : s.last_received_bnb ≤ 0 := by
        rw [hsl]
        exact hlr
      exact buy_to_spend_le_fraction hl' (le_max_left _ _) hf
  · obtain ⟨hattS, -, -, -⟩ :=
      sell_branch_inv (hstep.symm.trans Prod.mk.eta.symm)
    rw [hattS] at hatt
    simp at hatt

/-- Witness for C7's amended theorem at the concrete C5 buy scenario. -/
theorem C7_witness :
    0 < (cycle_step defaultConfig C5_env C5_state).2.amount ∧
    (cycle_step defaultConfig C5_env C5_state).2.amount
      ≤ pyInt ((spendable_of defaultConfig C5_env 0 : ℚ) * (3 / 10)) ∧
    ((cycle_step defaultConfig C5_env C5_state).2.amount : ℚ)
      ≤ (spendable_of defaultConfig C5_env 0 : ℚ) * C5_env.fraction :=
  have h := C7_amended_buy_size_cap defaultConfig C5_env C5_state 0
    (by rw [C5_cycle_eval]) (by rw [C5_cycle_eval])
  ⟨h.1, h.2.1, h.2.2 (by norm_num [C5_state]) (by norm_num [C5_env])⟩

/-! ## Claim C9 — failed attempts: no state mutation, no halt, backoff -/

/-- Claim C9, amended: a cycle that executes no trade never mutates any
account's scheduler state (`entry_time`, `entry_price`, `sell_count`), and
the loop always proceeds to the next cycle; a submitted-but-failed trade
(reverted or network error) in the main path is followed by the fixed
5-second backoff, while in the forced-sell path it is followed by the
random stagger sleep; a non-positive computed size skips the cycle with no
backoff at all. -/
theorem C9_amended_failure_isolation (cfg : Config) (env : CycleEnv)
    (s0 : BotState) :
    ((cycle_step cfg env s0).2.executed = false →
      (cycle_step cfg env s0).1.states = s0.states) ∧
    ((cycle_step cfg env s0).2.submitted = true →
      (cycle_step cfg env s0).2.executed = false →
      ((cycle_step cfg env s0).2.forced = false →
        (cycle_step cfg env s0).2.sleep = 5) ∧
      ((cycle_step cfg env s0).2.forced = true →
        (cycle_step cfg env s0).2.sleep = env.stagger)) := by
  obtain ⟨s, hss, hsl, hcase⟩ := cycle_step_inv cfg env s0
  rcases hcase with ⟨hres, hst⟩ | ⟨hres, hst, -⟩ | ⟨hstep, -⟩ |
    ⟨a', m, hmem, hstep, -⟩ | ⟨a', m, hmem, hstep, -⟩
  · refine ⟨fun _ => hst, fun hsub _ => ?_⟩
    rw [hres] at hsub
    exact Bool.noConfusion hsub
  · refine ⟨fun _ => hst, fun hsub _ => ?_⟩
    rw [hres] at hsub
    exact Bool.noConfusion hsub
  · obtain ⟨hnone, hsome⟩ :=
      forced_sell_inv (hstep.symm.trans Prod.mk.eta.symm)
    rcases hatt : (cycle_step cfg env s0).2.attempted with - | p
    · obtain ⟨hs', -, hsub0, -⟩ := hnone hatt
      refine ⟨fun _ => ?_, fun hsub _ => ?_⟩
      · rw [hs']
        exact hss
      · rw [hsub0] at hsub
        exact Bool.noConfusion hsub
    · obtain ⟨-, hforced, -, -, -, -, hsleep, -, hexfalse⟩ :=
        hsome p.1 p.2 (by rw [hatt])
      refine ⟨fun hex0 => ?_, fun _ _ => ⟨fun hf => ?_, fun _ => hsleep⟩⟩
      · rw [hexfalse hex0]
        exact hss
      · rw [hforced] at hf
        exact Bool.noConfusion hf
  · obtain ⟨-, hforced, -, hfail⟩ :=
      buy_branch_inv (hstep.symm.trans Prod.mk.eta.symm)
    refine ⟨fun hex0 => ?_, fun hsub hex0 => ?_⟩
    · obtain ⟨hs', -, -⟩ := hfail hex0
      rw [hs']
      exact hss
    · obtain ⟨-, hsl5, -⟩ := hfail hex0
      refine ⟨fun _ => hsl5 hsub, fun hf => ?_⟩
      rw [hforced] at hf
      exact Bool.noConfusion hf
  · obtain ⟨-, hforced, -, hfail⟩ :=
      sell_branch_inv (hstep.symm.trans Prod.mk.eta.symm)
    refine ⟨fun hex0 => ?_, fun hsub hex0 => ?_⟩
    · obtain ⟨hs', -, -⟩ := hfail hex0
      rw [hs']
      exact hss
    · obtain ⟨-, hsl5, -⟩ := hfail hex0
      refine ⟨fun _ => hsl5 hsub, fun hf => ?_⟩
      rw [hforced] at hf
      exact Bool.noConfusion hf

/-- Single-account state facing a buy token with no recorded proceeds. -/
def C9_state : BotState :=
  { accounts := [0]
    states := fun _ => ⟨some 100, some 1, 0⟩
    queue := [Action.buy]
    buy_fib := seeded_buy_fib
    sell_fib := seeded_sell_fib
    last_received_bnb := 0 }

/-- Cycle observations for C9: a single wei of spendable balance, so the
computed buy size truncates to 0 and the attempt is abandoned. -/
def C9_env : CycleEnv :=
  { now := 100
    price := some 1
    token_bal := fun _ => 0
    bnb_bal := fun _ => 2000000000000001
    pick := 0
    fraction := 1 / 100
    sell_fraction := 7 / 20
    tx_ok := true
    received_bnb := 500
    shuffle := id
    stagger := 4 }

/-- Evaluation of one cycle on the C9 scenario. -/
theorem C9_cycle_eval :
    (cycle_step defaultConfig C9_env C9_state).2
      = ⟨some (0, Action.buy), false, false, false, 0, 0⟩ := by
  norm_num [cycle_step, dispatch, candidatesFor, pickFrom, buy_branch,
    buy_to_spend, cycle_price, pyInt, spendable_of, C9_env, C9_state,
    defaultConfig, refill_queue, List.filterMap, min_def]

/-- Evaluation of the account map after the abandoned C9 attempt. -/
theorem C9_states_eval :
    (cycle_step defaultConfig C9_env C9_state).1.states
      = C9_state.states := by
  norm_num [cycle_step, dispatch, candidatesFor, pickFrom, buy_branch,
    buy_to_spend, cycle_price, pyInt, spendable_of, C9_env, C9_state,
    defaultConfig, refill_queue, List.filterMap, min_def]

/-- Counterexample for claim C9: a buy attempt abandoned for non-positive
computed size leaves all scheduler state untouched and does not halt, but
the loop continues immediately with a 0-second sleep — there is no fixed
backoff before the retry, contrary to the claim. -/
theorem C9_counterexample :
    (cycle_step defaultConfig C9_env C9_state).2
      = ⟨some (0, Action.buy), false, false, false, 0, 0⟩ ∧
    (cycle_step defaultConfig C9_env C9_state).1.states
      = C9_state.states ∧
    (0 : ℚ) ≠ 5 := by
  refine ⟨C9_cycle_eval, C9_states_eval, by norm_num⟩

/-- Cycle observations for the C9 witness: same scenario as the C2 witness
but the submitted transaction fails (revert or network error). -/
def C9w_env : CycleEnv := { C2w_env with tx_ok := false }

/-- Evaluation of one cycle on the C9 witness scenario: the sell is
submitted, fails, and the cycle ends with the fixed 5-second sleep. -/
theorem C9w_cycle_eval :
    (cycle_step defaultConfig C9w_env C2w_state).2
      = ⟨some (0, Action.sell), false, true, false, 350, 5⟩ := by
  norm_num [cycle_step, dispatch, candidatesFor, pickFrom, sell_branch,
    sell_now_decision, profit_trigger, age, cycle_price, pyInt,
    C9w_env, C2w_env, C2w_state, defaultConfig, PROFIT_TARGET,
    refill_queue, List.filterMap]

/-- Witness for C9's amended theorem at a concrete failed submission. -/
theorem C9_witness :
    (cycle_step defaultConfig C9w_env C2w_state).1.states
      = C2w_state.states ∧
    (cycle_step defaultConfig C9w_env C2w_state).2.sleep = 5 :=
  have h := C9_amended_failure_isolation defaultConfig C9w_env C2w_state
  ⟨h.1 (by rw [C9w_cycle_eval]),
   (h.2 (by rw [C9w_cycle_eval]) (by rw [C9w_cycle_eval])).1
     (by rw [C9w_cycle_eval])⟩

/-! ## Claim C10 — successful sells reset the recorded entry -/

theorem forced_sell_pct_bounds (st : AccountState) :
    0 ≤ forced_sell_pct st ∧ forced_sell_pct st < 1 := by
  unfold forced_sell_pct
  split <;> norm_num

/-- Claim C10 (confirmed): every successful sell — queue-driven (a 30–40%
fraction of the balance) or forced (40% or 30%) — resets the account's
entry time and entry price to `None` and bumps `sell_count`; the sold
amount is strictly below the positive token balance, so the account can
keep a strictly positive balance while recorded flat; with the flat record
the computed position age is 0 and the profit trigger cannot fire until a
new buy records an entry. -/
theorem C10_sell_resets_entry (cfg : Config) (env : CycleEnv)
    (s0 : BotState) (a : Addr)
    (hex : (cycle_step cfg env s0).2.executed = true)
    (hatt : (cycle_step cfg env s0).2.attempted = some (a, Action.sell))
    (hsf0 : 0 ≤ env.sell_fraction) (hsf1 : env.sell_fraction < 1) :
    (cycle_step cfg env s0).1.states a
      = ⟨none, none, (s0.states a).sell_count + 1⟩ ∧
    0 < env.token_bal a ∧
    (cycle_step cfg env s0).2.amount < env.token_bal a ∧
    age env.now ((cycle_step cfg env s0).1.states a).entry_time = 0 ∧
    profit_trigger env.price ((cycle_step cfg env s0).1.states a)
      = false := by
  obtain ⟨s, hss, hsl, hcase⟩ := cycle_step_inv cfg env s0
  have hsa : ∀ x, s.states x = s0.states x := fun x => congrFun hss x
  rcases hcase with ⟨hres, _⟩ | ⟨hres, _, _⟩ | ⟨hstep, _⟩ |
    ⟨a', m, hmem, hstep, _⟩ | ⟨a', m, hmem, hstep, _⟩
  · rw [hres] at hatt
    simp at hatt
  · rw [hres] at hatt
    simp at hatt
  · obtain ⟨-, hsome⟩ := forced_sell_inv (hstep.symm.trans Prod.mk.eta.symm)
    obtain ⟨-, -, -, htb, hamount, -, -, hexec, -⟩ :=
      hsome a Action.sell hatt
    obtain ⟨-, hupd⟩ := hexec hex
    have hstates : (cycle_step cfg env s0).1.states a
        = ⟨none, none, (s0.states a).sell_count + 1⟩ := by
      rw [hupd, Function.update_same, hsa a]
    refine ⟨hstates, htb, ?_, by rw [hstates]; rfl, ?_⟩
    · rw [hamount]
      exact pyInt_mul_lt htb (forced_sell_pct_bounds (s.states a)).1
        (forced_sell_pct_bounds (s.states a)).2
    · rw [hstates]
      cases env.price <;> rfl
  · obtain ⟨hattB, -, -, -⟩ :=
      buy_branch_inv (hstep.symm.trans Prod.mk.eta.symm)
    rw [hattB] at hatt
    simp at hatt
  · obtain ⟨hattS, -, hexec, -⟩ :=
      sell_branch_inv (hstep.symm.trans Prod.mk.eta.symm)
    have ha2 : a' = a := by
      rw [hattS] at hatt
      exact (Prod.mk.injEq .. |>.mp (Option.some.injEq .. |>.mp hatt)).1
    rw [← ha2]
    obtain ⟨-, hamount, -, -, hupd, -⟩ := hexec hex
    obtain ⟨hm, hmpos⟩ := mem_candidatesFor_sell hmem
    have hstates : (cycle_step cfg env s0).1.states a'
        = ⟨none, none, (s0.states a').sell_count + 1⟩ := by
      rw [hupd, Function.update_same, hsa a']
    refine ⟨hstates, hm ▸ hmpos, ?_, by rw [hstates]; rfl, ?_⟩
    · rw [hamount, hm]
      exact pyInt_mul_lt (hm ▸ hmpos) hsf0 hsf1
    · rw [hstates]
      cases env.price <;> rfl

/-- Witness for C10 at the concrete executed sell of the C2 witness
scenario: 350 of 1000 tokens are sold, the entry resets. -/
theorem C10_witness :
    (cycle_step defaultConfig C2w_env C2w_state).1.states 0
      = ⟨none, none, (C2w_state.states 0).sell_count + 1⟩ ∧
    0 < C2w_env.token_bal 0 ∧
    (cycle_step defaultConfig C2w_env C2w_state).2.amount
      < C2w_env.token_bal 0 ∧
    age C2w_env.now
      ((cycle_step defaultConfig C2w_env C2w_state).1.states 0).entry_time
      = 0 ∧
    profit_trigger C2w_env.price
      ((cycle_step defaultConfig C2w_env C2w_state).1.states 0) = false :=
  C10_sell_resets_entry defaultConfig C2w_env C2w_state 0
    (by rw [C2w_cycle_eval]) (by rw [C2w_cycle_eval])
    (by norm_num [C2w_env]) (by norm_num [C2w_env])

end Vkinha
